import Mathlib

/-!
Shallow embedding of the Persian OCR Telegram bot (`src/bot.py`).

The embedding models, faithfully to the source:
* the model pool registry (`MODELS`, `MODEL_USAGE`, `current_model_idx`,
  `get_current_model`, `rotate_model_on_error`);
* the failover retry engine (`extract_text_with_retry`): remote calls are
  an oracle `Nat → CallRes` giving the outcome of the k-th call, and
  timestamps an oracle `Nat → Nat`;
* the per-conversation result ledger (`context.user_data['extractions']`)
  as an association list;
* the inline-button callback handler (`handle_button_callback`);
* the image and document pipelines (`process_image`, `process_document`),
  with the chat transport, attachment decoding, PDF opening and page
  rendering as external collaborators supplied as parameters.
-/

/-- Substring test on character lists, mirroring the semantics of the
Python `in` operator on strings (`"429" in error_msg`). -/
def containsSub (needle : List Char) : List Char → Bool
  | [] => needle.isEmpty
  | c :: rest => needle.isPrefixOf (c :: rest) || containsSub needle rest

/-- Substring test on strings, mirroring Python `needle in s`. -/
def strContains (needle s : String) : Bool :=
  containsSub needle.toList s.toList

/-- Python dict assignment `d[k] = v` on an association list:
overwrite the binding of `k` if present, else append a new binding. -/
def dictSet : List (String × String) → String → String → List (String × String)
  | [], k, v => [(k, v)]
  | (k', v') :: rest, k, v =>
    if k' = k then (k, v) :: rest else (k', v') :: dictSet rest k v

/-- Python dict lookup `d[k]` (with `k in d` as `isSome`). -/
def dictGet : List (String × String) → String → Option String
  | [], _ => none
  | (k', v') :: rest, k => if k' = k then some v' else dictGet rest k

/-- The dict-initialisation pattern of the source: initialise
`context.user_data['extractions']` to an empty dict when missing,
then store the extraction under its handle. -/
def storeExtraction (ud : Option (List (String × String))) (k v : String) :
    List (String × String) :=
  dictSet (ud.getD []) k v

/-- `MODELS` from the source: the ordered model identity pool. -/
def MODELS : List String := ["gemini-2.0-flash", "gemini-2.0-flash-lite"]

/-- Per-model usage record, one entry of `MODEL_USAGE`. -/
structure ModelStats where
  count : Nat
  last_used : Nat
  errors : Nat
deriving DecidableEq

/-- Update the stats bound to `name` in a `MODEL_USAGE`-style table. -/
def updateStats (f : ModelStats → ModelStats) (name : String) :
    List (String × ModelStats) → List (String × ModelStats)
  | [] => []
  | (n, s) :: rest =>
    if n = name then (n, f s) :: rest else (n, s) :: updateStats f name rest

/-- The process-wide mutable state of the bot: `current_model_idx`
and the `MODEL_USAGE` table. -/
structure BotState where
  current_model_idx : Nat
  model_usage : List (String × ModelStats)
deriving DecidableEq

/-- The initial process state: cursor at 0, all counters zero. -/
def initState : BotState :=
  { current_model_idx := 0
    model_usage := MODELS.map (fun m => (m, ⟨0, 0, 0⟩)) }

/-- `get_current_model()` from the source. -/
def get_current_model (st : BotState) : String :=
  MODELS.getD st.current_model_idx ""

/-- The usage-tracking lines at the top of the retry loop:
`MODEL_USAGE[current_model]["count"] += 1` and
`MODEL_USAGE[current_model]["last_used"] = time.time()`. -/
def record_attempt (now : Nat) (st : BotState) : BotState :=
  { st with model_usage :=
      (updateStats (fun s => { s with count := s.count + 1, last_used := now })
        (get_current_model st) st.model_usage) }

/-- `rotate_model_on_error()` from the source: record the error for the
current model, then advance the cursor modulo the pool size.  (The
2-second back-off sleep it performs is counted by the retry loop.) -/
def rotate_model_on_error (st : BotState) : BotState :=
  { current_model_idx := (st.current_model_idx + 1) % MODELS.length
    model_usage :=
      (updateStats (fun s => { s with errors := s.errors + 1 })
        (get_current_model st) st.model_usage) }

/-- Outcome of one remote `model.generate_content` call: the response
text, or the message of the raised exception. -/
inductive CallRes where
  | ok (text : String)
  | err (msg : String)
deriving DecidableEq

/-- How `extract_text_with_retry` terminates. -/
inductive ExtractOutcome where
  | ok (text : String)
  | raisedExhausted
  | reraised (msg : String)
  | failedAfter (attempts : Nat)
deriving DecidableEq

/-- Observable trace of one `extract_text_with_retry` execution:
its outcome, the final process state, the number of remote call
attempts made, of `rotate_model_on_error` calls, and of back-off
sleeps applied. -/
structure RetryTrace where
  outcome : ExtractOutcome
  state : BotState
  calls : Nat
  rotations : Nat
  backoffs : Nat
deriving DecidableEq

/-- The rate-limit classifier of the source, line 101:
`if "429" in error_msg or "quota" in error_msg`. -/
def isRateLimit (msg : String) : Bool :=
  containsSub "429".toList msg.toList || containsSub "quota".toList msg.toList

/-- `max_attempts = 3 * len(MODELS)` from the source. -/
def max_attempts : Nat := 3 * MODELS.length

/-- The `while attempts < max_attempts` loop of `extract_text_with_retry`.
`oracle k` is the outcome of the k-th remote call (0-based), `clock k`
the wall-clock time observed at that call. -/
def retryLoop (oracle : Nat → CallRes) (clock : Nat → Nat) (maxA : Nat)
    (attempts : Nat) (st : BotState) (calls rotations backoffs : Nat) :
    RetryTrace :=
  if h : attempts < maxA then
    let st1 := record_attempt (clock calls) st
    match oracle calls with
    | CallRes.ok t => ⟨ExtractOutcome.ok t, st1, calls + 1, rotations, backoffs⟩
    | CallRes.err m =>
      if isRateLimit m then
        if h2 : maxA ≤ attempts + 1 then
          ⟨ExtractOutcome.raisedExhausted, st1, calls + 1, rotations, backoffs⟩
        else
          retryLoop oracle clock maxA (attempts + 1) (rotate_model_on_error st1)
            (calls + 1) (rotations + 1) (backoffs + 1)
      else
        ⟨ExtractOutcome.reraised m, st1, calls + 1, rotations, backoffs⟩
  else
    ⟨ExtractOutcome.failedAfter attempts, st, calls, rotations, backoffs⟩
termination_by maxA - attempts
decreasing_by omega

/-- `extract_text_with_retry` from the source: run the retry loop from
zero attempts with budget `max_attempts`. -/
def extract_text_with_retry (oracle : Nat → CallRes) (clock : Nat → Nat)
    (st : BotState) : RetryTrace :=
  retryLoop oracle clock max_attempts 0 st 0 0 0

theorem retryLoop_step_ok (oracle : Nat → CallRes) (clock : Nat → Nat)
    (maxA attempts : Nat) (st : BotState) (calls rot bo : Nat) (t : String)
    (h : attempts < maxA) (ho : oracle calls = CallRes.ok t) :
    retryLoop oracle clock maxA attempts st calls rot bo =
      ⟨ExtractOutcome.ok t, record_attempt (clock calls) st, calls + 1, rot, bo⟩ := by
  rw [retryLoop.eq_def]
  simp only [dif_pos h, ho]

theorem retryLoop_step_fatal (oracle : Nat → CallRes) (clock : Nat → Nat)
    (maxA attempts : Nat) (st : BotState) (calls rot bo : Nat) (m : String)
    (h : attempts < maxA) (ho : oracle calls = CallRes.err m)
    (hm : isRateLimit m = false) :
    retryLoop oracle clock maxA attempts st calls rot bo =
      ⟨ExtractOutcome.reraised m, record_attempt (clock calls) st, calls + 1, rot, bo⟩ := by
  rw [retryLoop.eq_def]
  simp only [dif_pos h, ho, hm, Bool.false_eq_true, if_false]

theorem retryLoop_step_exhaust (oracle : Nat → CallRes) (clock : Nat → Nat)
    (maxA attempts : Nat) (st : BotState) (calls rot bo : Nat) (m : String)
    (h : attempts < maxA) (hlast : maxA ≤ attempts + 1)
    (ho : oracle calls = CallRes.err m) (hm : isRateLimit m = true) :
    retryLoop oracle clock maxA attempts st calls rot bo =
      ⟨ExtractOutcome.raisedExhausted, record_attempt (clock calls) st,
        calls + 1, rot, bo⟩ := by
  rw [retryLoop.eq_def]
  simp only [dif_pos h, ho, hm, if_true, dif_pos hlast]

theorem retryLoop_step_rotate (oracle : Nat → CallRes) (clock : Nat → Nat)
    (maxA attempts : Nat) (st : BotState) (calls rot bo : Nat) (m : String)
    (h : attempts + 1 < maxA) (ho : oracle calls = CallRes.err m)
    (hm : isRateLimit m = true) :
    retryLoop oracle clock maxA attempts st calls rot bo =
      retryLoop oracle clock maxA (attempts + 1)
        (rotate_model_on_error (record_attempt (clock calls) st))
        (calls + 1) (rot + 1) (bo + 1) := by
  rw [retryLoop.eq_def]
  simp only [dif_pos (Nat.lt_of_succ_lt h), ho, hm, if_true,
    dif_neg (Nat.not_le_of_lt h)]

/-- If every remote call in the remaining budget fails with a rate-limit
message, the loop ends in the exhausted error after exactly one call per
remaining budget unit. -/
theorem retryLoop_allfail (oracle : Nat → CallRes) (clock : Nat → Nat)
    (maxA : Nat) :
    ∀ (n attempts : Nat) (st : BotState) (calls rot bo : Nat),
      maxA - attempts = n → attempts < maxA →
      (∀ k, k < maxA - attempts →
        ∃ m, oracle (calls + k) = CallRes.err m ∧ isRateLimit m = true) →
      (retryLoop oracle clock maxA attempts st calls rot bo).outcome =
        ExtractOutcome.raisedExhausted ∧
      (retryLoop oracle clock maxA attempts st calls rot bo).calls =
        calls + (maxA - attempts) := by
  intro n
  induction n with
  | zero => intro attempts st calls rot bo hn hlt hall; omega
  | succ n ih =>
    intro attempts st calls rot bo hn hlt hall
    obtain ⟨m, hm, hrl⟩ := hall 0 (by omega)
    rw [Nat.add_zero] at hm
    by_cases hlast : maxA ≤ attempts + 1
    · rw [retryLoop_step_exhaust oracle clock maxA attempts st calls rot bo m
        hlt hlast hm hrl]
      constructor
      · rfl
      · show calls + 1 = calls + (maxA - attempts); omega
    · rw [retryLoop_step_rotate oracle clock maxA attempts st calls rot bo m
        (by omega) hm hrl]
      have ih' := ih (attempts + 1)
        (rotate_model_on_error (record_attempt (clock calls) st))
        (calls + 1) (rot + 1) (bo + 1) (by omega) (by omega)
        (fun k hk => by
          obtain ⟨mk, hmk, hrlk⟩ := hall (k + 1) (by omega)
          exact ⟨mk, by rw [← hmk]; ring_nf, hrlk⟩)
      refine ⟨ih'.1, ?_⟩
      rw [ih'.2]; omega

/-- The exhausted error is only ever raised after the full remaining
attempt budget has been consumed in calls. -/
theorem retryLoop_exhausted_calls (oracle : Nat → CallRes) (clock : Nat → Nat)
    (maxA : Nat) :
    ∀ (n attempts : Nat) (st : BotState) (calls rot bo : Nat),
      maxA - attempts = n →
      (retryLoop oracle clock maxA attempts st calls rot bo).outcome =
        ExtractOutcome.raisedExhausted →
      (retryLoop oracle clock maxA attempts st calls rot bo).calls =
        calls + (maxA - attempts) := by
  intro n
  induction n with
  | zero =>
    intro attempts st calls rot bo hn hout
    have hge : ¬ attempts < maxA := by omega
    rw [retryLoop.eq_def] at hout
    simp only [dif_neg hge] at hout
    exact absurd hout (by simp)
  | succ n ih =>
    intro attempts st calls rot bo hn hout
    have hlt : attempts < maxA := by omega
    cases ho : oracle calls with
    | ok t =>
      rw [retryLoop_step_ok oracle clock maxA attempts st calls rot bo t hlt ho]
        at hout
      exact absurd hout (by simp)
    | err m =>
      cases hrl : isRateLimit m with
      | false =>
        rw [retryLoop_step_fatal oracle clock maxA attempts st calls rot bo m
          hlt ho hrl] at hout
        exact absurd hout (by simp)
      | true =>
        by_cases hlast : maxA ≤ attempts + 1
        · rw [retryLoop_step_exhaust oracle clock maxA attempts st calls rot bo m
            hlt hlast ho hrl]
          show calls + 1 = calls + (maxA - attempts); omega
        · rw [retryLoop_step_rotate oracle clock maxA attempts st calls rot bo m
            (by omega) ho hrl] at hout ⊢
          have := ih (attempts + 1)
            (rotate_model_on_error (record_attempt (clock calls) st))
            (calls + 1) (rot + 1) (bo + 1) (by omega) hout
          rw [this]; omega

/-- A success on any attempt within budget, preceded only by rate-limited
failures, returns that response with no further calls. -/
theorem retryLoop_success (oracle : Nat → CallRes) (clock : Nat → Nat)
    (maxA : Nat) (t : String) :
    ∀ (j attempts : Nat) (st : BotState) (calls rot bo : Nat),
      attempts + j < maxA →
      (∀ k, k < j →
        ∃ m, oracle (calls + k) = CallRes.err m ∧ isRateLimit m = true) →
      oracle (calls + j) = CallRes.ok t →
      (retryLoop oracle clock maxA attempts st calls rot bo).outcome =
        ExtractOutcome.ok t ∧
      (retryLoop oracle clock maxA attempts st calls rot bo).calls =
        calls + j + 1 := by
  intro j
  induction j with
  | zero =>
    intro attempts st calls rot bo hlt hpre hok
    rw [Nat.add_zero] at hok
    rw [retryLoop_step_ok oracle clock maxA attempts st calls rot bo t
      (by omega) hok]
    exact ⟨rfl, rfl⟩
  | succ j ih =>
    intro attempts st calls rot bo hlt hpre hok
    obtain ⟨m, hm, hrl⟩ := hpre 0 (by omega)
    rw [Nat.add_zero] at hm
    rw [retryLoop_step_rotate oracle clock maxA attempts st calls rot bo m
      (by omega) hm hrl]
    have ih' := ih (attempts + 1)
      (rotate_model_on_error (record_attempt (clock calls) st))
      (calls + 1) (rot + 1) (bo + 1) (by omega)
      (fun k hk => by
        obtain ⟨mk, hmk, hrlk⟩ := hpre (k + 1) (by omega)
        exact ⟨mk, by rw [← hmk]; ring_nf, hrlk⟩)
      (by rw [← hok]; ring_nf)
    refine ⟨ih'.1, ?_⟩
    rw [ih'.2]; ring

/-- A failure not classified as rate-limited, preceded only by rate-limited
failures, is re-raised at once: one call for it, no extra rotation, no
extra back-off. -/
theorem retryLoop_fatal_at (oracle : Nat → CallRes) (clock : Nat → Nat)
    (maxA : Nat) (m : String) :
    ∀ (j attempts : Nat) (st : BotState) (calls rot bo : Nat),
      attempts + j < maxA →
      (∀ k, k < j →
        ∃ mk, oracle (calls + k) = CallRes.err mk ∧ isRateLimit mk = true) →
      oracle (calls + j) = CallRes.err m → isRateLimit m = false →
      (retryLoop oracle clock maxA attempts st calls rot bo).outcome =
        ExtractOutcome.reraised m ∧
      (retryLoop oracle clock maxA attempts st calls rot bo).calls =
        calls + j + 1 ∧
      (retryLoop oracle clock maxA attempts st calls rot bo).rotations =
        rot + j ∧
      (retryLoop oracle clock maxA attempts st calls rot bo).backoffs =
        bo + j := by
  intro j
  induction j with
  | zero =>
    intro attempts st calls rot bo hlt hpre herr hnrl
    rw [Nat.add_zero] at herr
    rw [retryLoop_step_fatal oracle clock maxA attempts st calls rot bo m
      (by omega) herr hnrl]
    exact ⟨rfl, rfl, rfl, rfl⟩
  | succ j ih =>
    intro attempts st calls rot bo hlt hpre herr hnrl
    obtain ⟨m0, hm0, hrl0⟩ := hpre 0 (by omega)
    rw [Nat.add_zero] at hm0
    rw [retryLoop_step_rotate oracle clock maxA attempts st calls rot bo m0
      (by omega) hm0 hrl0]
    have ih' := ih (attempts + 1)
      (rotate_model_on_error (record_attempt (clock calls) st))
      (calls + 1) (rot + 1) (bo + 1) (by omega)
      (fun k hk => by
        obtain ⟨mk, hmk, hrlk⟩ := hpre (k + 1) (by omega)
        exact ⟨mk, by rw [← hmk]; ring_nf, hrlk⟩)
      (by rw [← herr]; ring_nf) hnrl
    refine ⟨ih'.1, ?_, ?_, ?_⟩
    · rw [ih'.2.1]; ring
    · rw [ih'.2.2.1]; ring
    · rw [ih'.2.2.2]; ring

theorem isPrefixOf_iff_exists_append :
    ∀ (n h : List Char), n.isPrefixOf h = true ↔ ∃ q, h = n ++ q := by
  intro n
  induction n with
  | nil => intro h; simp [List.isPrefixOf]
  | cons a as ih =>
    intro h
    cases h with
    | nil => simp [List.isPrefixOf]
    | cons b bs =>
      simp only [List.isPrefixOf, Bool.and_eq_true, beq_iff_eq, ih bs,
        List.cons_append, List.cons.injEq]
      constructor
      · rintro ⟨rfl, q, rfl⟩; exact ⟨q, rfl, rfl⟩
      · rintro ⟨q, hb, hbs⟩; exact ⟨hb.symm, q, hbs⟩

theorem containsSub_iff_exists (n : List Char) :
    ∀ h : List Char, containsSub n h = true ↔ ∃ p q, h = p ++ (n ++ q) := by
  intro h
  induction h with
  | nil =>
    simp only [containsSub, List.isEmpty_iff]
    constructor
    · rintro rfl; exact ⟨[], [], rfl⟩
    · rintro ⟨p, q, hpq⟩
      rcases List.append_eq_nil.mp hpq.symm with ⟨-, h2⟩
      exact (List.append_eq_nil.mp h2).1
  | cons c rest ih =>
    simp only [containsSub, Bool.or_eq_true, isPrefixOf_iff_exists_append, ih]
    constructor
    · rintro (⟨q, hq⟩ | ⟨p, q, hpq⟩)
      · exact ⟨[], q, by simpa using hq⟩
      · exact ⟨c :: p, q, by rw [List.cons_append, ← hpq]⟩
    · rintro ⟨p, q, hpq⟩
      cases p with
      | nil => exact Or.inl ⟨q, by simpa using hpq⟩
      | cons x xs =>
        right
        rw [List.cons_append] at hpq
        injection hpq with h1 h2
        exact ⟨xs, q, h2⟩

/-- Claim C1 (confirmed): in every execution where every remote call fails
with a rate-limit/quota message, the retry engine makes exactly
`3 * len(MODELS) = 6` call attempts and then raises the exhausted error;
the exhausted error is never raised after fewer calls, and a success on
any attempt within the budget returns that response immediately with no
further call. -/
theorem C1_retry_exhaustion (oracle : Nat → CallRes) (clock : Nat → Nat)
    (st : BotState)
    (hall : ∀ k, k < max_attempts →
      ∃ m, oracle k = CallRes.err m ∧ isRateLimit m = true) :
    max_attempts = 3 * MODELS.length ∧ max_attempts = 6 ∧
    (extract_text_with_retry oracle clock st).outcome =
      ExtractOutcome.raisedExhausted ∧
    (extract_text_with_retry oracle clock st).calls = max_attempts ∧
    (∀ (oracle2 : Nat → CallRes) (clock2 : Nat → Nat) (st2 : BotState),
      (extract_text_with_retry oracle2 clock2 st2).outcome =
        ExtractOutcome.raisedExhausted →
      (extract_text_with_retry oracle2 clock2 st2).calls = max_attempts) ∧
    (∀ (oracle3 : Nat → CallRes) (clock3 : Nat → Nat) (st3 : BotState)
        (j : Nat) (t : String),
      j < max_attempts →
      (∀ k, k < j → ∃ m, oracle3 k = CallRes.err m ∧ isRateLimit m = true) →
      oracle3 j = CallRes.ok t →
      (extract_text_with_retry oracle3 clock3 st3).outcome =
        ExtractOutcome.ok t ∧
      (extract_text_with_retry oracle3 clock3 st3).calls = j + 1) := by
  have hpos : 0 < max_attempts := by decide
  refine ⟨rfl, rfl, ?_, ?_, ?_, ?_⟩
  · exact (retryLoop_allfail oracle clock max_attempts max_attempts 0 st 0 0 0
      (by omega) hpos (fun k hk => by simpa using hall k (by omega))).1
  · have h := (retryLoop_allfail oracle clock max_attempts max_attempts 0 st 0 0 0
      (by omega) hpos (fun k hk => by simpa using hall k (by omega))).2
    simpa using h
  · intro oracle2 clock2 st2 hout
    have h := retryLoop_exhausted_calls oracle2 clock2 max_attempts
      max_attempts 0 st2 0 0 0 (by omega) hout
    simpa using h
  · intro oracle3 clock3 st3 j t hj hpre hok
    have h := retryLoop_success oracle3 clock3 max_attempts t j 0 st3 0 0 0
      (by omega) (fun k hk => by simpa using hpre k hk) (by simpa using hok)
    exact ⟨h.1, by simpa using h.2⟩

theorem C1_retry_exhaustion_witness :
    (extract_text_with_retry (fun _ => CallRes.err "429") (fun _ => 0)
      initState).outcome = ExtractOutcome.raisedExhausted ∧
    (extract_text_with_retry (fun _ => CallRes.err "429") (fun _ => 0)
      initState).calls = 6 := by
  have h := C1_retry_exhaustion (fun _ => CallRes.err "429") (fun _ => 0)
    initState (fun k _ => ⟨"429", rfl, by decide⟩)
  exact ⟨h.2.2.1, h.2.2.2.1⟩

/-- Claim C2 (confirmed): a failure not classified as a rate-limit/quota
condition is re-raised immediately, on whatever attempt it occurs: the
failover cursor is not advanced for it (`rotate_model_on_error` is called
only for the earlier rate-limited failures), no back-off delay is applied
for it, and no further call attempt is made. -/
theorem C2_fatal_no_retry (oracle : Nat → CallRes) (clock : Nat → Nat)
    (st : BotState) (j : Nat) (m : String)
    (hj : j < max_attempts)
    (hpre : ∀ k, k < j → ∃ mk, oracle k = CallRes.err mk ∧ isRateLimit mk = true)
    (herr : oracle j = CallRes.err m) (hm : isRateLimit m = false) :
    (extract_text_with_retry oracle clock st).outcome =
      ExtractOutcome.reraised m ∧
    (extract_text_with_retry oracle clock st).calls = j + 1 ∧
    (extract_text_with_retry oracle clock st).rotations = j ∧
    (extract_text_with_retry oracle clock st).backoffs = j := by
  have h := retryLoop_fatal_at oracle clock max_attempts m j 0 st 0 0 0
    (by omega) (fun k hk => by simpa using hpre k hk) (by simpa using herr) hm
  exact ⟨h.1, by simpa using h.2.1, by simpa using h.2.2.1,
    by simpa using h.2.2.2⟩

theorem C2_fatal_no_retry_witness :
    (extract_text_with_retry
      (fun k => if k = 0 then CallRes.err "quota exceeded"
        else CallRes.err "socket closed")
      (fun _ => 0) initState).outcome = ExtractOutcome.reraised "socket closed" ∧
    (extract_text_with_retry
      (fun k => if k = 0 then CallRes.err "quota exceeded"
        else CallRes.err "socket closed")
      (fun _ => 0) initState).calls = 2 ∧
    (extract_text_with_retry
      (fun k => if k = 0 then CallRes.err "quota exceeded"
        else CallRes.err "socket closed")
      (fun _ => 0) initState).rotations = 1 ∧
    (extract_text_with_retry
      (fun k => if k = 0 then CallRes.err "quota exceeded"
        else CallRes.err "socket closed")
      (fun _ => 0) initState).backoffs = 1 := by
  have h := C2_fatal_no_retry
    (fun k => if k = 0 then CallRes.err "quota exceeded"
      else CallRes.err "socket closed")
    (fun _ => 0) initState 1 "socket closed" (by decide)
    (fun k hk => by
      have hk0 : k = 0 := by omega
      subst hk0
      exact ⟨"quota exceeded", rfl, by decide⟩)
    rfl (by decide)
  exact ⟨h.1, h.2.1, h.2.2.1, h.2.2.2⟩

/-- Claim C9 (confirmed): a remote-call failure is classified as a
rate-limit/quota condition exactly when the substring `"429"` or the
substring `"quota"` occurs in the exception message; a failure whose
message contains either marker triggers rotation, back-off and a further
attempt (within the attempt budget), and a failure whose message contains
neither marker is re-raised immediately with no rotation and no back-off. -/
theorem C9_rate_limit_classification :
    (∀ m : String, isRateLimit m = true ↔
      ((∃ p q, m.toList = p ++ ("429".toList ++ q)) ∨
        (∃ p q, m.toList = p ++ ("quota".toList ++ q)))) ∧
    (∀ (oracle : Nat → CallRes) (clock : Nat → Nat) (maxA attempts : Nat)
        (st : BotState) (calls rot bo : Nat) (m : String),
      attempts + 1 < maxA → oracle calls = CallRes.err m →
      isRateLimit m = true →
      retryLoop oracle clock maxA attempts st calls rot bo =
        retryLoop oracle clock maxA (attempts + 1)
          (rotate_model_on_error (record_attempt (clock calls) st))
          (calls + 1) (rot + 1) (bo + 1)) ∧
    (∀ (oracle : Nat → CallRes) (clock : Nat → Nat) (maxA attempts : Nat)
        (st : BotState) (calls rot bo : Nat) (m : String),
      attempts < maxA → oracle calls = CallRes.err m →
      isRateLimit m = false →
      retryLoop oracle clock maxA attempts st calls rot bo =
        ⟨ExtractOutcome.reraised m, record_attempt (clock calls) st,
          calls + 1, rot, bo⟩) := by
  refine ⟨?_, ?_, ?_⟩
  · intro m
    simp only [isRateLimit, Bool.or_eq_true, containsSub_iff_exists]
  · intro oracle clock maxA attempts st calls rot bo m h ho hm
    exact retryLoop_step_rotate oracle clock maxA attempts st calls rot bo m
      h ho hm
  · intro oracle clock maxA attempts st calls rot bo m h ho hm
    exact retryLoop_step_fatal oracle clock maxA attempts st calls rot bo m
      h ho hm

theorem C9_rate_limit_classification_witness :
    isRateLimit "Resource has been exhausted (e.g. check quota)." = true ∧
    isRateLimit "server error 500" = false ∧
    retryLoop (fun _ => CallRes.err "server error 500") (fun _ => 0)
        max_attempts 0 initState 0 0 0 =
      ⟨ExtractOutcome.reraised "server error 500",
        record_attempt 0 initState, 1, 0, 0⟩ := by
  refine ⟨?_, by decide, ?_⟩
  · exact (C9_rate_limit_classification.1
      "Resource has been exhausted (e.g. check quota).").mpr
      (Or.inr ⟨"Resource has been exhausted (e.g. check ".toList,
        ").".toList, by decide⟩)
  · exact C9_rate_limit_classification.2.2
      (fun _ => CallRes.err "server error 500") (fun _ => 0)
      max_attempts 0 initState 0 0 0 "server error 500"
      (by decide) rfl (by decide)

/-- Python `s.startswith(p)`. -/
def strStartsWith (s p : String) : Bool :=
  p.toList.isPrefixOf s.toList

/-- Python `s.split(sep)` for a single-character separator, on the
character list. -/
def splitOnCharList (sep : Char) : List Char → List (List Char)
  | [] => [[]]
  | c :: rest =>
    let r := splitOnCharList sep rest
    if c = sep then [] :: r
    else (c :: r.headD []) :: r.tail

/-- Python `s.split(sep)` for a single-character separator. -/
def strSplit (s : String) (sep : Char) : List String :=
  (splitOnCharList sep s.toList).map String.mk

/-- Observable effects of one `handle_button_callback` invocation:
whether the query was acknowledged, the `send_email` calls made as
`(to, subject, body)` triples, the chat messages produced, and whether
the inline-button markup was removed. -/
structure CallbackRun where
  answered : Bool
  emails : List (String × String × String)
  messages : List String
  removed_markup : Bool
deriving DecidableEq

/-- `handle_button_callback` from the source.  `ud` is
`context.user_data['extractions']` (`none` when the key is absent),
`send_ok` the boolean outcome of `send_email`.  The handler returns its
effects together with the (unchanged) ledger and process state. -/
def handle_button_callback (callback_data : String)
    (ud : Option (List (String × String))) (bot : BotState)
    (user_email : String) (send_ok : Bool) :
    CallbackRun × Option (List (String × String)) × BotState :=
  if strStartsWith callback_data "send_email:" then
    match ud with
    | some m =>
      match dictGet m ((strSplit callback_data ':').getD 1 "") with
      | some extracted_text =>
        if send_ok then
          (⟨true, [(user_email, "Extracted Persian Text", extracted_text)],
            ["✅ Text sent to " ++ user_email], true⟩, ud, bot)
        else
          (⟨true, [(user_email, "Extracted Persian Text", extracted_text)],
            ["❌ Failed to send email. Please check the logs."], false⟩,
            ud, bot)
      | none =>
        (⟨true, [], ["❌ Could not find the extracted text."], false⟩, ud, bot)
    | none =>
      (⟨true, [], ["❌ Could not find the extracted text."], false⟩, ud, bot)
  else
    (⟨true, [], [], false⟩, ud, bot)

/-- Claim C10 (confirmed): a callback query whose data does not start with
`send_email:` is only acknowledged: no email is sent, no chat message is
produced, the markup is untouched, and the ledger, usage counters and
failover cursor are returned unchanged. -/
theorem C10_other_callback_noop (callback_data : String)
    (ud : Option (List (String × String))) (bot : BotState)
    (user_email : String) (send_ok : Bool)
    (h : strStartsWith callback_data "send_email:" = false) :
    handle_button_callback callback_data ud bot user_email send_ok =
      (⟨true, [], [], false⟩, ud, bot) := by
  simp only [handle_button_callback, h, Bool.false_eq_true, if_false]

theorem C10_other_callback_noop_witness :
    handle_button_callback "stats" (some [("img_4", "متن")]) initState
      "user@example.com" true =
      (⟨true, [], [], false⟩, some [("img_4", "متن")], initState) := by
  exact C10_other_callback_noop "stats" (some [("img_4", "متن")]) initState
    "user@example.com" true (by decide)

theorem dictGet_dictSet_self (m : List (String × String)) (k v : String) :
    dictGet (dictSet m k v) k = some v := by
  induction m with
  | nil => simp [dictSet, dictGet]
  | cons p rest ih =>
    by_cases hp : p.1 = k
    · simp [dictSet, dictGet, hp]
    · simp [dictSet, dictGet, hp, ih]

/-- The claim that the send-to-email affordance is removed after the first
tap regardless of the delivery outcome fails on the code: on a failed send
the handler only posts a failure notice and leaves the reply markup in
place; `edit_message_reply_markup(None)` runs only in the success branch. -/
theorem C4_counterexample :
    (handle_button_callback "send_email:img_1" (some [("img_1", "سلام")])
      initState "user@example.com" false).1.removed_markup = false ∧
    (handle_button_callback "send_email:img_1" (some [("img_1", "سلام")])
      initState "user@example.com" true).1.removed_markup = true := by
  constructor <;> decide

/-- Claim C4 (corrected): for a tap of the send-to-email action whose
handle is present in the ledger, the inline-button affordance is removed
exactly when the delivery succeeds; on a failed send the affordance is
left in place and a failure notice is posted. -/
theorem C4_markup_removed_iff_send_ok (callback_data mid t : String)
    (m : List (String × String)) (bot : BotState) (user_email : String)
    (send_ok : Bool)
    (hstart : strStartsWith callback_data "send_email:" = true)
    (hparse : (strSplit callback_data ':').getD 1 "" = mid)
    (hfound : dictGet m mid = some t) :
    (handle_button_callback callback_data (some m) bot user_email
      send_ok).1.removed_markup = send_ok ∧
    (handle_button_callback callback_data (some m) bot user_email
      send_ok).1.emails = [(user_email, "Extracted Persian Text", t)] ∧
    (handle_button_callback callback_data (some m) bot user_email
      send_ok).1.messages =
      (if send_ok then ["✅ Text sent to " ++ user_email]
        else ["❌ Failed to send email. Please check the logs."]) := by
  have hparse' : (strSplit callback_data ':')[1]?.getD "" = mid := by
    simpa [List.getD_eq_getElem?_getD] using hparse
  cases send_ok <;>
    simp [handle_button_callback, hstart, hparse', hfound]

theorem C4_markup_removed_iff_send_ok_witness :
    (handle_button_callback "send_email:img_1" (some [("img_1", "سلام")])
      initState "user@example.com" true).1.removed_markup = true := by
  exact (C4_markup_removed_iff_send_ok "send_email:img_1" "img_1" "سلام"
    [("img_1", "سلام")] initState "user@example.com" true
    (by decide) (by decide) (by decide)).1

/-- Claim C8 (confirmed): storing a text under a handle in a conversation
ledger and retrieving that handle yields exactly the stored text, for any
handle/text pair; retrieving a handle that is not stored (or retrieving
when the conversation has no ledger at all) takes the not-found outcome:
the user is told the text could not be found and no email is attempted. -/
theorem C8_ledger_roundtrip_and_not_found (callback_data mid : String)
    (ud : Option (List (String × String))) (bot : BotState)
    (user_email : String) (send_ok : Bool)
    (hstart : strStartsWith callback_data "send_email:" = true)
    (hparse : (strSplit callback_data ':').getD 1 "" = mid)
    (hmiss : dictGet (ud.getD []) mid = none) :
    (∀ (ud2 : Option (List (String × String))) (k t : String),
      dictGet (storeExtraction ud2 k t) k = some t) ∧
    handle_button_callback callback_data ud bot user_email send_ok =
      (⟨true, [], ["❌ Could not find the extracted text."], false⟩,
        ud, bot) := by
  constructor
  · intro ud2 k t
    exact dictGet_dictSet_self (ud2.getD []) k t
  · cases ud with
    | none => simp [handle_button_callback, hstart]
    | some m =>
      simp only [Option.getD_some] at hmiss
      have hparse' : (strSplit callback_data ':')[1]?.getD "" = mid := by
        simpa [List.getD_eq_getElem?_getD] using hparse
      simp [handle_button_callback, hstart, hparse', hmiss]

theorem C8_ledger_roundtrip_and_not_found_witness :
    dictGet (storeExtraction none "img_9"
      "متن استخراج شده") "img_9" = some "متن استخراج شده" ∧
    handle_button_callback "send_email:pdf_3" (some [("img_9", "x")])
      initState "user@example.com" true =
      (⟨true, [], ["❌ Could not find the extracted text."], false⟩,
        some [("img_9", "x")], initState) := by
  have h := C8_ledger_roundtrip_and_not_found "send_email:pdf_3" "pdf_3"
    (some [("img_9", "x")]) initState "user@example.com" true
    (by decide) (by decide) (by decide)
  exact ⟨h.1 none "img_9" "متن استخراج شده", h.2⟩

/-- Python `s.strip()` on the character list: drop leading and trailing
whitespace. -/
def stripChars (l : List Char) : List Char :=
  ((l.dropWhile Char.isWhitespace).reverse.dropWhile Char.isWhitespace).reverse

/-- Python `s.strip()`. -/
def strStrip (s : String) : String :=
  String.mk (stripChars s.toList)

/-- In-order concatenation of a list of text segments. -/
def joinStrings : List String → String
  | [] => ""
  | s :: rest => s ++ joinStrings rest

/-- The outbound delivery order of the chunk loop of `process_document`:
each chunk is sent as its own message, with the `(continued...)` marker
between consecutive chunks. -/
def interleaveCont : List String → List String
  | [] => []
  | [c] => [c]
  | c :: c2 :: rest => c :: "(continued...)" :: interleaveCont (c2 :: rest)

/-- The chunking list comprehension of the source:
`[all_text[i:i+4000] for i in range(0, len(all_text), 4000)]`. -/
def chunkText (s : String) : List String :=
  (List.range ((s.toList.length + 3999) / 4000)).map
    (fun k => String.mk ((s.toList.drop (k * 4000)).take 4000))

/-- Result of an image handler run: the chat messages sent in order, the
messages among them that carry extracted text, the resulting
`extractions` ledger, and the handle bound to the send-to-email button
(if one was shown). -/
structure ImageRun where
  messages : List String
  text_segments : List String
  ledger : Option (List (String × String))
  button_handle : Option String
deriving DecidableEq

/-- The 429 tail of the outer exception handlers:
`if "429" in str(e): ...`. -/
def rateLimitNote (e : String) : List String :=
  if strContains "429" e then ["⚠️ Rate limit exceeded. Please try again later."]
  else []

/-- `process_image` from the source.  `decode` stands for the download
and `Image.open` steps, `extraction` for the `extract_text_with_retry`
call (its text on success, the raised message on failure), and
`result_message_id` for the message identifier of the sent result
message that the handle is derived from. -/
def process_image (authorized : Bool) (bot : BotState)
    (decode : Except String Unit) (extraction : Except String String)
    (result_message_id : Nat) (ud : Option (List (String × String))) :
    ImageRun :=
  if !authorized then
    ⟨["Sorry, you are not authorized to use this bot."], [], ud, none⟩
  else
    match decode with
    | Except.error e =>
      ⟨["Processing your image...", "Error processing image: " ++ e] ++
        rateLimitNote e, [], ud, none⟩
    | Except.ok _ =>
      match extraction with
      | Except.error e =>
        ⟨["Processing your image...",
          "Extracting Persian text with Gemini " ++ get_current_model bot ++
            "...",
          "⚠️ API Error: " ++ e,
          "Try again in a few minutes or contact the administrator."],
          [], ud, none⟩
      | Except.ok extracted_text =>
        ⟨["Processing your image...",
          "Extracting Persian text with Gemini " ++ get_current_model bot ++
            "...",
          "✅ Extracted Persian Text:", extracted_text,
          "Would you like to send this text to your email?"],
          [extracted_text],
          some (storeExtraction ud ("img_" ++ toString result_message_id)
            extracted_text),
          some ("img_" ++ toString result_message_id)⟩

/-- The per-page banner appended to `all_text` for a page whose
extraction raised. -/
def errorBanner (p : Nat) (e : String) : String :=
  "\n--- Page " ++ toString (p + 1) ++ ": Error processing - " ++ e ++ " ---\n"

/-- The per-page banner appended to `all_text` for a page with text. -/
def textBanner (p : Nat) (t : String) : String :=
  "\n--- Page " ++ toString (p + 1) ++ " ---\n" ++ t ++ "\n"

/-- The per-page banner appended to `all_text` for a page whose stripped
text is empty. -/
def noTextBanner (p : Nat) : String :=
  "\n--- Page " ++ toString (p + 1) ++ ": No text detected ---\n"

/-- The contribution of one page to `all_text`, as a function of the
outcome of that page's extraction. -/
def pageBanner (p : Nat) (r : Except String String) : String :=
  match r with
  | Except.error e => errorBanner p e
  | Except.ok t =>
    if strStrip t = "" then noTextBanner p else textBanner p (strStrip t)

/-- The page loop of `process_document`.  `render p` stands for the
`load_page`/`get_pixmap`/`Image.open` steps of page `p` (whose failure
escapes to the outer handler), `extract p` for the
`extract_text_with_retry` call on page `p` (whose failure is caught in
the loop).  Returns the escaped render error (if any), the accumulated
`all_text`, and the chat messages so far. -/
def docPages (render : Nat → Except String Unit)
    (extract : Nat → Except String String) (maxp : Nat) :
    List Nat → String → List String →
    Option String × String × List String
  | [], acc, msgs => (none, acc, msgs)
  | p :: rest, acc, msgs =>
    let msgs1 := msgs ++
      ["Processing page " ++ toString (p + 1) ++ "/" ++ toString maxp ++ "..."]
    match render p with
    | Except.error e => (some e, acc, msgs1)
    | Except.ok _ =>
      let msgs2 := if 0 < p then
          msgs1 ++ ["Waiting a moment to avoid rate limits..."]
        else msgs1
      match extract p with
      | Except.error e =>
        docPages render extract maxp rest (acc ++ errorBanner p e)
          (msgs2 ++ ["⚠️ API Error on page " ++ toString (p + 1) ++ ": " ++ e])
      | Except.ok t =>
        if strStrip t = "" then
          docPages render extract maxp rest (acc ++ noTextBanner p)
            (msgs2 ++ ["No text found on page " ++ toString (p + 1)])
        else
          docPages render extract maxp rest (acc ++ textBanner p (strStrip t))
            (msgs2 ++ ["Page " ++ toString (p + 1) ++ " text extracted"])

/-- Result of a document handler run: whether a temporary PDF file was
created and whether it was deleted, the chat messages in order, the
messages carrying extracted text, the final ledger, the handle bound to
the send-to-email button (if shown), and the assembled `all_text`. -/
structure DocRun where
  temp_created : Bool
  temp_deleted : Bool
  messages : List String
  text_segments : List String
  ledger : Option (List (String × String))
  button_handle : Option String
  all_text : String
deriving DecidableEq

/-- `process_document` from the source.  `openRes` stands for the
`fitz.open` step (page count on success, raised message on failure),
`render`/`extract` for the per-page steps as in `docPages`, and
`result_message_id` for the identifier of the last chunk message. -/
def process_document (authorized : Bool) (file_name : String) (is_pdf : Bool)
    (openRes : Except String Nat) (render : Nat → Except String Unit)
    (extract : Nat → Except String String) (result_message_id : Nat)
    (ud : Option (List (String × String))) : DocRun :=
  if !authorized then
    ⟨false, false, ["Sorry, you are not authorized to use this bot."],
      [], ud, none, ""⟩
  else if !is_pdf then
    ⟨false, false, ["Please send a PDF document."], [], ud, none, ""⟩
  else
    let msgs0 := ["Processing your PDF...",
      "Opening PDF... (" ++ file_name ++ ")"]
    match openRes with
    | Except.error e =>
      ⟨true, false, msgs0 ++ ["Error processing PDF: " ++ e] ++
        rateLimitNote e, [], ud, none, ""⟩
    | Except.ok page_count =>
      let max_pages := Nat.min page_count 3
      let msgs1 := msgs0 ++
        ["Found " ++ toString page_count ++ " pages. Processing..."]
      match docPages render extract max_pages (List.range max_pages) "" msgs1 with
      | (some e, _, msgs2) =>
        ⟨true, false, msgs2 ++ ["Error processing PDF: " ++ e] ++
          rateLimitNote e, [], ud, none, ""⟩
      | (none, all_text, msgs2) =>
        if strStrip all_text = "" then
          ⟨true, true, msgs2 ++ ["No Persian text detected in the PDF."],
            [], ud, none, all_text⟩
        else
          ⟨true, true,
            msgs2 ++ ["✅ Extracted Persian Text from PDF:"] ++
              interleaveCont (chunkText all_text) ++
              ["Would you like to send this text to your email?"],
            chunkText all_text,
            some (storeExtraction ud ("pdf_" ++ toString result_message_id)
              all_text),
            some ("pdf_" ++ toString result_message_id), all_text⟩

theorem string_mk_append (a b : List Char) :
    String.mk a ++ String.mk b = String.mk (a ++ b) := rfl

theorem string_mk_toList (s : String) : String.mk s.toList = s := rfl

theorem string_append_empty (s : String) : s ++ "" = s := by
  cases s with
  | mk d => rw [show ("" : String) = String.mk [] from rfl, string_mk_append,
      List.append_nil]

theorem string_empty_append (s : String) : "" ++ s = s := by
  cases s with
  | mk d => rfl

theorem string_append_assoc (a b c : String) :
    (a ++ b) ++ c = a ++ (b ++ c) := by
  cases a with
  | mk da =>
    cases b with
    | mk db =>
      cases c with
      | mk dc =>
        rw [string_mk_append, string_mk_append, string_mk_append,
          string_mk_append, List.append_assoc]

theorem joinStrings_cons (s : String) (l : List String) :
    joinStrings (s :: l) = s ++ joinStrings l := rfl

theorem chunks_join_aux (n : Nat) :
    ∀ l : List Char, (l.length + 3999) / 4000 = n →
      joinStrings ((List.range n).map
        (fun k => String.mk ((l.drop (k * 4000)).take 4000))) = String.mk l := by
  induction n with
  | zero =>
    intro l hn
    have hl : l.length = 0 := by omega
    rw [List.length_eq_zero.mp hl]
    rfl
  | succ n ih =>
    intro l hn
    rw [List.range_succ_eq_map, List.map_cons, List.map_map, joinStrings_cons]
    have hmaps : (List.range n).map
        ((fun k => String.mk ((l.drop (k * 4000)).take 4000)) ∘ Nat.succ) =
        (List.range n).map
          (fun k => String.mk (((l.drop 4000).drop (k * 4000)).take 4000)) := by
      apply List.map_congr_left
      intro a _
      simp only [Function.comp_apply, List.drop_drop]
      have h4 : Nat.succ a * 4000 = 4000 + a * 4000 := by omega
      rw [h4]
    rw [hmaps, ih (l.drop 4000) (by simp only [List.length_drop]; omega)]
    simp only [Nat.zero_mul, List.drop_zero, string_mk_append]
    rw [List.take_append_drop]

theorem chunkText_join (s : String) : joinStrings (chunkText s) = s := by
  rw [chunkText, chunks_join_aux ((s.toList.length + 3999) / 4000) s.toList rfl,
    string_mk_toList]

theorem chunkText_length_le (s : String) (c : String) (hc : c ∈ chunkText s) :
    c.toList.length ≤ 4000 := by
  rw [chunkText] at hc
  obtain ⟨k, -, hk⟩ := List.mem_map.mp hc
  rw [← hk]
  simp only [String.toList]
  calc ((s.toList.drop (k * 4000)).take 4000).length ≤ 4000 := by
        rw [List.length_take]; omega

/-- When no page render fails, the page loop never escapes and assembles
`all_text` as the in-order concatenation of the per-page banners. -/
theorem docPages_ok (render : Nat → Except String Unit)
    (extract : Nat → Except String String) (maxp : Nat)
    (hr : ∀ p, render p = Except.ok ()) :
    ∀ (l : List Nat) (acc : String) (msgs : List String),
      (docPages render extract maxp l acc msgs).1 = none ∧
      (docPages render extract maxp l acc msgs).2.1 =
        acc ++ joinStrings (l.map (fun p => pageBanner p (extract p))) := by
  intro l
  induction l with
  | nil =>
    intro acc msgs
    exact ⟨rfl, (string_append_empty acc).symm⟩
  | cons p rest ih =>
    intro acc msgs
    rw [docPages, hr p]
    cases hx : extract p with
    | error e =>
      have ihr := ih (acc ++ errorBanner p e)
        ((if 0 < p then
            msgs ++ ["Processing page " ++ toString (p + 1) ++ "/" ++
              toString maxp ++ "..."] ++
              ["Waiting a moment to avoid rate limits..."]
          else msgs ++ ["Processing page " ++ toString (p + 1) ++ "/" ++
            toString maxp ++ "..."]) ++
          ["⚠️ API Error on page " ++ toString (p + 1) ++ ": " ++ e])
      refine ⟨?_, ?_⟩
      · simp only [List.map_cons, joinStrings_cons]
        convert ihr.1 using 3
      · simp only [List.map_cons, joinStrings_cons, pageBanner, hx]
        rw [← string_append_assoc]
        convert ihr.2 using 3
    | ok t =>
      by_cases hstrip : strStrip t = ""
      · have ihr := ih (acc ++ noTextBanner p)
          ((if 0 < p then
              msgs ++ ["Processing page " ++ toString (p + 1) ++ "/" ++
                toString maxp ++ "..."] ++
                ["Waiting a moment to avoid rate limits..."]
            else msgs ++ ["Processing page " ++ toString (p + 1) ++ "/" ++
              toString maxp ++ "..."]) ++
            ["No text found on page " ++ toString (p + 1)])
        refine ⟨?_, ?_⟩
        · simp only [hstrip, if_pos rfl]
          convert ihr.1 using 3
        · simp only [List.map_cons, joinStrings_cons, pageBanner, hx, hstrip,
            if_pos rfl]
          rw [← string_append_assoc]
          convert ihr.2 using 3
      · have ihr := ih (acc ++ textBanner p (strStrip t))
          ((if 0 < p then
              msgs ++ ["Processing page " ++ toString (p + 1) ++ "/" ++
                toString maxp ++ "..."] ++
                ["Waiting a moment to avoid rate limits..."]
            else msgs ++ ["Processing page " ++ toString (p + 1) ++ "/" ++
              toString maxp ++ "..."]) ++
            ["Page " ++ toString (p + 1) ++ " text extracted"])
        refine ⟨?_, ?_⟩
        · simp only [hstrip, if_neg hstrip]
          convert ihr.1 using 3
        · simp only [List.map_cons, joinStrings_cons, pageBanner, hx,
            if_neg hstrip]
          rw [← string_append_assoc]
          convert ihr.2 using 3

theorem docPages_eq_tuple (render : Nat → Except String Unit)
    (extract : Nat → Except String String) (maxp : Nat)
    (hr : ∀ p, render p = Except.ok ()) (l : List Nat) (acc : String)
    (msgs : List String) :
    docPages render extract maxp l acc msgs =
      (none, acc ++ joinStrings (l.map fun p => pageBanner p (extract p)),
        (docPages render extract maxp l acc msgs).2.2) := by
  obtain ⟨h1, h2⟩ := docPages_ok render extract maxp hr l acc msgs
  exact Prod.ext h1 (Prod.ext h2 rfl)

/-- The assembled `all_text` of a document run over `n` pages, as the
in-order concatenation of the per-page banners of the first
`min(n, 3)` pages. -/
def docAllText (extract : Nat → Except String String) (n : Nat) : String :=
  joinStrings ((List.range (Nat.min n 3)).map fun p => pageBanner p (extract p))

/-- Full characterisation of an authorized document run whose PDF opens
with `n` pages and whose page renders all succeed. -/
theorem process_document_ok (file_name : String) (n : Nat)
    (render : Nat → Except String Unit) (extract : Nat → Except String String)
    (mid : Nat) (ud : Option (List (String × String)))
    (hr : ∀ p, render p = Except.ok ()) :
    process_document true file_name true (Except.ok n) render extract mid ud =
      (if strStrip (docAllText extract n) = "" then
        ⟨true, true,
          (docPages render extract (Nat.min n 3) (List.range (Nat.min n 3)) ""
            (["Processing your PDF...",
              "Opening PDF... (" ++ file_name ++ ")"] ++
              ["Found " ++ toString n ++ " pages. Processing..."])).2.2 ++
            ["No Persian text detected in the PDF."],
          [], ud, none, docAllText extract n⟩
      else
        ⟨true, true,
          (docPages render extract (Nat.min n 3) (List.range (Nat.min n 3)) ""
            (["Processing your PDF...",
              "Opening PDF... (" ++ file_name ++ ")"] ++
              ["Found " ++ toString n ++ " pages. Processing..."])).2.2 ++
            ["✅ Extracted Persian Text from PDF:"] ++
            interleaveCont (chunkText (docAllText extract n)) ++
            ["Would you like to send this text to your email?"],
          chunkText (docAllText extract n),
          some (storeExtraction ud ("pdf_" ++ toString mid)
            (docAllText extract n)),
          some ("pdf_" ++ toString mid), docAllText extract n⟩) := by
  simp only [process_document, Bool.not_true, Bool.false_eq_true, if_false]
  rw [docPages_eq_tuple render extract (Nat.min n 3) hr]
  simp only [string_empty_append, docAllText]

/-- Claim C3 (code bug): `os.unlink(pdf_path)` sits inside the `try`
block of `process_document`, after the page loop, so when `fitz.open`
raises -- or when a page render raises -- control jumps to the outer
exception handler and the temporary PDF file is never deleted.  At both
failing inputs below the temp file is created but not deleted. -/
theorem C3_temp_file_leak_on_failure :
    (process_document true "broken.pdf" true
      (Except.error "cannot open broken document") (fun _ => Except.ok ())
      (fun _ => Except.ok "") 1 none).temp_created = true ∧
    (process_document true "broken.pdf" true
      (Except.error "cannot open broken document") (fun _ => Except.ok ())
      (fun _ => Except.ok "") 1 none).temp_deleted = false ∧
    (process_document true "ok.pdf" true (Except.ok 2)
      (fun _ => Except.error "render crash") (fun _ => Except.ok "x") 1
      none).temp_created = true ∧
    (process_document true "ok.pdf" true (Except.ok 2)
      (fun _ => Except.error "render crash") (fun _ => Except.ok "x") 1
      none).temp_deleted = false := by
  refine ⟨rfl, rfl, rfl, rfl⟩

/-- The per-page results of one document run: (0-based page index,
banner) pairs for the pages within the cap, in loop order. -/
def perPageResults (extract : Nat → Except String String) (page_count : Nat) :
    List (Nat × String) :=
  (List.range (Nat.min page_count 3)).map
    (fun p => (p, pageBanner p (extract p)))

/-- Claim C7 (confirmed): a document run over an `n`-page PDF produces
per-page results for exactly `min(n, 3)` pages, in ascending page order;
a page whose extraction raises contributes the
`--- Page N: Error processing - <message> ---` banner carrying the error
message; every page within the cap is attempted regardless of other
pages' failures, and `all_text` is the in-order concatenation of the
per-page banners. -/
theorem C7_page_cap_order_error_isolation (file_name : String) (n : Nat)
    (render : Nat → Except String Unit) (extract : Nat → Except String String)
    (mid : Nat) (ud : Option (List (String × String)))
    (hr : ∀ p, render p = Except.ok ()) :
    (perPageResults extract n).length = Nat.min n 3 ∧
    (perPageResults extract n).map Prod.fst = List.range (Nat.min n 3) ∧
    (∀ p, p < Nat.min n 3 →
      (p, pageBanner p (extract p)) ∈ perPageResults extract n) ∧
    (∀ p e, extract p = Except.error e →
      pageBanner p (extract p) =
        "\n--- Page " ++ toString (p + 1) ++ ": Error processing - " ++ e ++
          " ---\n") ∧
    (process_document true file_name true (Except.ok n) render extract mid
        ud).all_text =
      joinStrings ((perPageResults extract n).map Prod.snd) := by
  have hfst : (Prod.fst ∘ fun p : Nat => (p, pageBanner p (extract p))) =
      (fun p => p) := rfl
  have hsnd : (Prod.snd ∘ fun p : Nat => (p, pageBanner p (extract p))) =
      (fun p => pageBanner p (extract p)) := rfl
  refine ⟨by simp [perPageResults], ?_, ?_, ?_, ?_⟩
  · simp [perPageResults, List.map_map, hfst]
  · intro p hp
    exact List.mem_map.mpr ⟨p, List.mem_range.mpr hp, rfl⟩
  · intro p e he
    rw [he]
    rfl
  · rw [process_document_ok file_name n render extract mid ud hr]
    split <;>
      simp [docAllText, perPageResults, List.map_map, hsnd]

theorem C7_page_cap_order_error_isolation_witness :
    (perPageResults
      (fun p => if p = 1 then Except.error "boom"
        else Except.ok ("page " ++ toString p)) 5).length = 3 ∧
    (process_document true "doc.pdf" true (Except.ok 5) (fun _ => Except.ok ())
      (fun p => if p = 1 then Except.error "boom"
        else Except.ok ("page " ++ toString p)) 3 none).all_text =
      joinStrings ((perPageResults
        (fun p => if p = 1 then Except.error "boom"
          else Except.ok ("page " ++ toString p)) 5).map Prod.snd) := by
  have h := C7_page_cap_order_error_isolation "doc.pdf" 5
    (fun _ => Except.ok ())
    (fun p => if p = 1 then Except.error "boom"
      else Except.ok ("page " ++ toString p)) 3 none (fun _ => rfl)
  exact ⟨h.1, h.2.2.2.2⟩

/-- The claim that a ledger entry and the send-to-email affordance appear
only for non-empty extracted text fails on the code: on the image path an
extraction returning the empty string is stored in the ledger and the
button is shown anyway. -/
theorem C5_counterexample :
    (process_image true initState (Except.ok ()) (Except.ok "") 7
      none).ledger = some [("img_7", "")] ∧
    (process_image true initState (Except.ok ()) (Except.ok "") 7
      none).button_handle = some "img_7" := by
  exact ⟨rfl, rfl⟩

/-- Claim C5 (corrected): on the document path a ledger entry and the
send-to-email affordance are created exactly when the assembled text is
non-blank after stripping; on the image path every successful extraction
-- including one producing empty text -- adds a ledger entry and exposes
the send-to-email action. -/
theorem C5_ledger_entry_conditions :
    (∀ (bot : BotState) (t : String) (mid : Nat)
        (ud : Option (List (String × String))),
      (process_image true bot (Except.ok ()) (Except.ok t) mid ud).ledger =
        some (storeExtraction ud ("img_" ++ toString mid) t) ∧
      (process_image true bot (Except.ok ()) (Except.ok t) mid
        ud).button_handle = some ("img_" ++ toString mid)) ∧
    (∀ (file_name : String) (n : Nat) (render : Nat → Except String Unit)
        (extract : Nat → Except String String) (mid : Nat)
        (ud : Option (List (String × String))),
      (∀ p, render p = Except.ok ()) →
      (strStrip (docAllText extract n) = "" →
        (process_document true file_name true (Except.ok n) render extract
          mid ud).ledger = ud ∧
        (process_document true file_name true (Except.ok n) render extract
          mid ud).button_handle = none) ∧
      (strStrip (docAllText extract n) ≠ "" →
        (process_document true file_name true (Except.ok n) render extract
          mid ud).ledger =
          some (storeExtraction ud ("pdf_" ++ toString mid)
            (docAllText extract n)) ∧
        (process_document true file_name true (Except.ok n) render extract
          mid ud).button_handle = some ("pdf_" ++ toString mid))) := by
  refine ⟨fun bot t mid ud => ⟨rfl, rfl⟩, ?_⟩
  intro file_name n render extract mid ud hr
  rw [process_document_ok file_name n render extract mid ud hr]
  constructor
  · intro hblank
    rw [if_pos hblank]
    exact ⟨rfl, rfl⟩
  · intro hnb
    rw [if_neg hnb]
    exact ⟨rfl, rfl⟩

theorem C5_ledger_entry_conditions_witness :
    (process_image true initState (Except.ok ()) (Except.ok "متن") 2
      none).ledger = some [("img_2", "متن")] ∧
    (process_document true "a.pdf" true (Except.ok 1) (fun _ => Except.ok ())
      (fun _ => Except.ok "سلام") 4 none).button_handle = some "pdf_4" := by
  have h1 := (C5_ledger_entry_conditions.1 initState "متن" 2 none).1
  have h2 := ((C5_ledger_entry_conditions.2 "a.pdf" 1 (fun _ => Except.ok ())
    (fun _ => Except.ok "سلام") 4 none (fun _ => rfl)).2 (by decide)).2
  exact ⟨h1, h2⟩

/-- The claim that every delivered extracted text is segmented into
chunks of at most 4000 characters fails on the code: the image path sends
the whole text as one message, so a 4001-character extraction is
delivered as a single over-sized segment. -/
theorem C6_counterexample :
    (process_image true initState (Except.ok ())
      (Except.ok (String.mk (List.replicate 4001 'a'))) 9
      none).text_segments = [String.mk (List.replicate 4001 'a')] ∧
    4000 < (String.mk (List.replicate 4001 'a')).toList.length := by
  refine ⟨rfl, ?_⟩
  have hmk : (String.mk (List.replicate 4001 'a')).toList =
      List.replicate 4001 'a' := rfl
  rw [hmk, List.length_replicate]
  norm_num

/-- Claim C6 (corrected): on the document path the extracted text is
delivered as chunks of at most 4000 characters whose in-order
concatenation equals `all_text`, with the `(continued...)` marker sent
between consecutive chunks; on the image path the extracted text is sent
as one single message with no chunking, whatever its length. -/
theorem C6_chunking (file_name : String) (n : Nat)
    (render : Nat → Except String Unit) (extract : Nat → Except String String)
    (mid : Nat) (ud : Option (List (String × String)))
    (hr : ∀ p, render p = Except.ok ())
    (hnb : strStrip (docAllText extract n) ≠ "") :
    (∀ (bot : BotState) (t : String) (mid2 : Nat)
        (ud2 : Option (List (String × String))),
      (process_image true bot (Except.ok ()) (Except.ok t) mid2
        ud2).text_segments = [t]) ∧
    (process_document true file_name true (Except.ok n) render extract mid
      ud).text_segments = chunkText (docAllText extract n) ∧
    joinStrings ((process_document true file_name true (Except.ok n) render
      extract mid ud).text_segments) =
      (process_document true file_name true (Except.ok n) render extract mid
        ud).all_text ∧
    (∀ c ∈ (process_document true file_name true (Except.ok n) render extract
      mid ud).text_segments, c.toList.length ≤ 4000) ∧
    (∀ (a b : String) (l : List String), interleaveCont (a :: b :: l) =
      a :: "(continued...)" :: interleaveCont (b :: l)) ∧
    (∃ pre, (process_document true file_name true (Except.ok n) render extract
      mid ud).messages =
      pre ++ ["✅ Extracted Persian Text from PDF:"] ++
        interleaveCont ((process_document true file_name true (Except.ok n)
          render extract mid ud).text_segments) ++
        ["Would you like to send this text to your email?"]) := by
  rw [process_document_ok file_name n render extract mid ud hr, if_neg hnb]
  refine ⟨fun bot t mid2 ud2 => rfl, rfl, ?_, ?_, fun a b l => rfl, ?_⟩
  · exact chunkText_join (docAllText extract n)
  · intro c hc
    exact chunkText_length_le (docAllText extract n) c hc
  · exact ⟨(docPages render extract (Nat.min n 3) (List.range (Nat.min n 3)) ""
      (["Processing your PDF...", "Opening PDF... (" ++ file_name ++ ")"] ++
        ["Found " ++ toString n ++ " pages. Processing..."])).2.2, rfl⟩

theorem C6_chunking_witness :
    (process_image true initState (Except.ok ()) (Except.ok "وصل") 1
      none).text_segments = ["وصل"] ∧
    joinStrings ((process_document true "b.pdf" true (Except.ok 1)
      (fun _ => Except.ok ()) (fun _ => Except.ok "متن") 2
      none).text_segments) =
      (process_document true "b.pdf" true (Except.ok 1) (fun _ => Except.ok ())
        (fun _ => Except.ok "متن") 2 none).all_text := by
  have h := C6_chunking "b.pdf" 1 (fun _ => Except.ok ())
    (fun _ => Except.ok "متن") 2 none (fun _ => rfl) (by decide)
  exact ⟨h.1 initState "وصل" 1 none, h.2.2.1⟩
